import Mathlib

/-!
Verification of the header src/examples/native-cmake/native/src/mylib.h.

The header consists of a pragma-once guard, a conditional definition of the
macro MYLIB_EXPORT (dllexport under the Windows macro, default visibility
otherwise), and a single C-linkage declaration of
`int mylib_add(int a, int b)` carrying that export attribute.

The embedding models the header as data: a preprocessor configuration is a
single boolean (whether the Windows platform macro is defined), the macro is a
function of that boolean, and the header is the list of declarations it
produces.  Parts of the system that are not in the repository source (the
implementation of mylib_add, the linker producing the dynamic library, and the
C calling convention) are modelled from the spec and marked as such.
-/

/-- The two possible expansions of the export macro. -/
inductive ExportAttr
  | declspec_dllexport
  | attribute_visibility_default
deriving DecidableEq, Repr

/-- The literal token sequence each export attribute expands to. -/
def ExportAttr.expansion : ExportAttr → String
  | .declspec_dllexport => "__declspec(dllexport)"
  | .attribute_visibility_default => "__attribute__((visibility(\"default\")))"

/-- The conditional macro definition from lines 3-7 of mylib.h: when the
Windows platform macro is defined the export attribute is dllexport, otherwise
it is default visibility. -/
def MYLIB_EXPORT (win32 : Bool) : ExportAttr :=
  if win32 then .declspec_dllexport else .attribute_visibility_default

/-- C/C++ types as far as the header needs them: int, pointer, reference. -/
inductive CType
  | int
  | ptr (t : CType)
  | ref (t : CType)
deriving DecidableEq, Repr

/-- A pointer or reference parameter lets the callee reach caller storage;
an int parameter is passed by value. -/
def CType.isByValue : CType → Bool
  | .int => true
  | .ptr _ => false
  | .ref _ => false

/-- A formal parameter of a C function declaration. -/
structure Param where
  name : String
  type : CType
deriving DecidableEq, Repr

/-- Linkage of a declaration: C linkage (unmangled) or C++ linkage (mangled). -/
inductive Linkage
  | c
  | cpp
deriving DecidableEq, Repr

/-- A function declaration as it appears in a header. -/
structure FunDecl where
  name : String
  linkage : Linkage
  exportAttr : ExportAttr
  ret : CType
  params : List Param
deriving DecidableEq, Repr

/-- A top-level declaration a header can contain. -/
inductive Decl
  | fn (f : FunDecl)
  | var (name : String) (t : CType)
  | typeDef (name : String)
deriving DecidableEq, Repr

/-- Whether a declaration is a function declaration. -/
def Decl.isFn : Decl → Bool
  | .fn _ => true
  | _ => false

/-- Whether a declaration is a variable declaration. -/
def Decl.isVar : Decl → Bool
  | .var _ _ => true
  | _ => false

/-- Whether a declaration is a type declaration. -/
def Decl.isTypeDef : Decl → Bool
  | .typeDef _ => true
  | _ => false

/-- The one declaration of mylib.h, line 10: MYLIB_EXPORT int
mylib_add(int a, int b), inside the C-linkage block, for a given preprocessor
configuration. -/
def mylib_add_decl (win32 : Bool) : FunDecl :=
  ⟨"mylib_add", .c, MYLIB_EXPORT win32, .int, [⟨"a", .int⟩, ⟨"b", .int⟩]⟩

/-- mylib.h as a whole: under every preprocessor configuration it contributes
exactly the single declaration of mylib_add. -/
def mylib_header (win32 : Bool) : List Decl :=
  [.fn (mylib_add_decl win32)]

/-- mylib.h line 1 carries the pragma-once guard. -/
def mylib_h_pragma_once : Bool := true

/-- Smallest value of a 32-bit int. -/
def intMin : Int := -(2 ^ 31)

/-- Largest value of a 32-bit int. -/
def intMax : Int := 2 ^ 31 - 1

/-- A value representable as a 32-bit int. -/
def inIntRange (n : Int) : Prop := intMin ≤ n ∧ n ≤ intMax

instance (n : Int) : Decidable (inIntRange n) := by
  unfold inIntRange
  infer_instance

/-- Reduce an integer into the 32-bit int range, two's complement. -/
def wrap32 (n : Int) : Int := (n - intMin) % 2 ^ 32 + intMin

/-- Modelled from the spec: the implementation of mylib_add is not in the
repository source, only its declaration is; the spec records the output as
one integer, with the name suggesting addition, so the model computes the
two's-complement 32-bit sum. -/
def mylib_add (a b : Int) : Int := wrap32 (a + b)

/-- Modelled from the spec: caller-visible state at a call site, a finite map
from global names to values; the spec declares no side effects for mylib_add. -/
structure CallerState where
  globals : List (String × Int)
deriving DecidableEq, Repr

/-- Modelled from the spec: a call to mylib_add, given the caller-visible
state; with no declared side effects the call returns the state untouched
together with the plain int result. -/
def call_mylib_add (s : CallerState) (a b : Int) : CallerState × Int :=
  (s, mylib_add a b)

/-- The ways a native call could report back to its caller. -/
inductive CallOutcome
  | ok (v : Int)
  | errorCode (code : Int)
  | thrown (what : String)
deriving DecidableEq, Repr

/-- Whether a call outcome is a plain successful return. -/
def CallOutcome.isOk : CallOutcome → Bool
  | .ok _ => true
  | _ => false

/-- Modelled from the spec: the interface of mylib_add carries no
error-signaling convention, so an invocation always produces a plain int
return, never a status code or a thrown exception. -/
def invoke_mylib_add (a b : Int) : CallOutcome :=
  .ok (mylib_add a b)

/-- Itanium-style mangling of a C++-linkage function name. -/
def mangledName (f : FunDecl) : String :=
  "_Z" ++ toString f.name.length ++ f.name ++ "ii"

/-- The name under which a function declaration appears in the symbol table:
C linkage keeps the literal name, C++ linkage mangles it. -/
def symbol_of (f : FunDecl) : String :=
  match f.linkage with
  | .c => f.name
  | .cpp => mangledName f

/-- Modelled from the spec: the linker and the produced dynamic library are
not in the repository source; per the spec, every exported declaration of the
header appears in the dynamic symbol table under the name its linkage gives
it. -/
def dynamic_symbols (win32 : Bool) : List String :=
  (mylib_header win32).foldr
    (fun d acc =>
      match d with
      | .fn f => symbol_of f :: acc
      | _ => acc) []

/-- Modelled from the spec: a dynamic-library symbol lookup by literal name
succeeds exactly when the name is in the dynamic symbol table. -/
def dlsym_lookup (win32 : Bool) (s : String) : Bool :=
  (dynamic_symbols win32).contains s

/-- The preprocessor state of one translation unit, as far as mylib.h is
concerned: whether the header was already included, the declarations
accumulated so far, and how many times MYLIB_EXPORT has been defined. -/
structure TUState where
  mylibIncluded : Bool
  decls : List Decl
  mylibExportDefCount : Nat
deriving DecidableEq, Repr

/-- A translation unit before any include of mylib.h. -/
def emptyTU : TUState := ⟨false, [], 0⟩

/-- Processing one include of mylib.h: the pragma-once guard makes the
preprocessor skip the body when the file was already included; otherwise the
body defines MYLIB_EXPORT once and contributes the header declarations. -/
def include_mylib_h (win32 : Bool) (s : TUState) : TUState :=
  if mylib_h_pragma_once && s.mylibIncluded then s
  else ⟨true, s.decls ++ mylib_header win32, s.mylibExportDefCount + 1⟩

/-- Processing n successive includes of mylib.h in one translation unit. -/
def include_times (win32 : Bool) : Nat → TUState → TUState
  | 0, s => s
  | n + 1, s => include_times win32 n (include_mylib_h win32 s)

/-- Modelled from the spec: a by-value call of mylib_add from a caller whose
variables a and b hold the arguments; the callee receives copies, so the
caller variables come back as they went in. -/
structure CallerVars where
  a : Int
  b : Int
deriving DecidableEq, Repr

/-- Modelled from the spec: by-value call of mylib_add on the caller's
variables. -/
def call_by_value (v : CallerVars) : CallerVars × Int :=
  (v, mylib_add v.a v.b)

/-- Once mylib.h has been included, a further include is a no-op. -/
theorem include_mylib_h_already (win32 : Bool) (s : TUState)
    (h : s.mylibIncluded = true) : include_mylib_h win32 s = s := by
  unfold include_mylib_h mylib_h_pragma_once
  simp [h]

/-- After a first include, the translation unit records the inclusion. -/
theorem include_mylib_h_marks (win32 : Bool) (s : TUState) :
    (include_mylib_h win32 s).mylibIncluded = true := by
  unfold include_mylib_h mylib_h_pragma_once
  by_cases h : s.mylibIncluded = true <;> simp [h]

/-- Iterating includes from an already-included state changes nothing. -/
theorem include_times_already (win32 : Bool) (n : Nat) (s : TUState)
    (h : s.mylibIncluded = true) : include_times win32 n s = s := by
  induction n with
  | zero => rfl
  | succ k ih =>
    unfold include_times
    rw [include_mylib_h_already win32 s h]
    exact ih

/-- C1: the header declares exactly the function mylib_add, with the two int
parameters a and b, returning int, inside the C-linkage block, under every
preprocessor configuration. -/
theorem header_declares_exactly_mylib_add (win32 : Bool) :
    mylib_header win32 =
      [Decl.fn ⟨"mylib_add", Linkage.c, MYLIB_EXPORT win32, CType.int,
        [⟨"a", CType.int⟩, ⟨"b", CType.int⟩]⟩] := by
  rfl

/-- C2: the export macro is platform-conditional: under the Windows macro it
expands to the dllexport declaration, otherwise to the default-visibility
attribute. -/
theorem mylib_export_platform_conditional :
    (MYLIB_EXPORT true).expansion = "__declspec(dllexport)" ∧
    (MYLIB_EXPORT false).expansion =
      "__attribute__((visibility(\"default\")))" := by
  constructor <;> rfl

/-- C3: on every target platform a dynamic-library symbol lookup by the exact
literal, unmangled name mylib_add succeeds on the produced library's symbol
table. -/
theorem mylib_add_symbol_resolvable (win32 : Bool) :
    dlsym_lookup win32 "mylib_add" = true ∧
    symbol_of (mylib_add_decl win32) = "mylib_add" := by
  cases win32 <;> exact ⟨rfl, rfl⟩

/-- C4: for every pair of int inputs, a call of mylib_add returns an int
value: the function is total on int times int. -/
theorem mylib_add_total (a b : Int) (ha : inIntRange a) (hb : inIntRange b) :
    inIntRange (mylib_add a b) := by
  unfold mylib_add wrap32 inIntRange intMin intMax at *
  have h3 : (0 : Int) ≤ (a + b - -(2 ^ 31)) % 2 ^ 32 :=
    Int.emod_nonneg _ (by norm_num)
  have h4 : (a + b - -(2 ^ 31)) % 2 ^ 32 < 2 ^ 32 :=
    Int.emod_lt_of_pos _ (by norm_num)
  omega

/-- C4 witness: at the spec's sample input pairs (2, 3) and (-1, 1) the call
returns an int value. -/
theorem mylib_add_total_witness :
    inIntRange (mylib_add 2 3) ∧ inIntRange (mylib_add (-1) 1) :=
  ⟨mylib_add_total 2 3 (by decide) (by decide),
   mylib_add_total (-1) 1 (by decide) (by decide)⟩

/-- C5: mylib_add has no side effects: two calls on equal inputs, from any
caller-visible states, return equal results, and each call leaves the
caller-visible state unchanged. -/
theorem mylib_add_pure (s t : CallerState) (a b a' b' : Int)
    (ha : a = a') (hb : b = b') :
    (call_mylib_add s a b).2 = (call_mylib_add t a' b').2 ∧
    (call_mylib_add s a b).1 = s := by
  subst ha
  subst hb
  exact ⟨rfl, rfl⟩

/-- C5 witness: two calls on the input pair (2, 3) from distinct caller
states agree, and the first call leaves its state unchanged. -/
theorem mylib_add_pure_witness :
    (call_mylib_add ⟨[]⟩ 2 3).2 = (call_mylib_add ⟨[("g", 7)]⟩ 2 3).2 ∧
    (call_mylib_add ⟨[]⟩ 2 3).1 = ⟨[]⟩ :=
  mylib_add_pure ⟨[]⟩ ⟨[("g", 7)]⟩ 2 3 2 3 rfl rfl

/-- C6: the interface of mylib_add has no error branch: its declared return
type is plain int, and every invocation produces a plain successful int
return, never a status code or an exception. -/
theorem mylib_add_no_error_convention (win32 : Bool) (a b : Int) :
    (mylib_add_decl win32).ret = CType.int ∧
    (invoke_mylib_add a b).isOk = true ∧
    invoke_mylib_add a b = CallOutcome.ok (mylib_add a b) :=
  ⟨rfl, rfl, rfl⟩

/-- C7: the header's entire interface is the single exported C-linkage
function declaration of mylib_add: one function declaration, no variable and
no type declaration, under every preprocessor configuration. -/
theorem header_single_component (win32 : Bool) :
    ((mylib_header win32).filter Decl.isFn).length = 1 ∧
    ((mylib_header win32).filter Decl.isVar).length = 0 ∧
    ((mylib_header win32).filter Decl.isTypeDef).length = 0 ∧
    mylib_header win32 = [Decl.fn (mylib_add_decl win32)] ∧
    (mylib_add_decl win32).linkage = Linkage.c :=
  ⟨rfl, rfl, rfl, rfl, rfl⟩

/-- C8: the conditional definition of MYLIB_EXPORT is exhaustive and
exclusive: under every preprocessor configuration the macro is defined, it
equals the dllexport attribute exactly on the Windows configuration, and it
equals exactly one of the two attributes, never both and never neither. -/
theorem mylib_export_exhaustive_exclusive (win32 : Bool) :
    (MYLIB_EXPORT win32 == ExportAttr.declspec_dllexport) = win32 ∧
    (MYLIB_EXPORT win32 == ExportAttr.declspec_dllexport)
      = !(MYLIB_EXPORT win32 == ExportAttr.attribute_visibility_default) := by
  cases win32 <;> exact ⟨rfl, rfl⟩

/-- C9: inclusion of mylib.h is idempotent: thanks to the pragma-once guard,
including the header any positive number of times yields the same translation
unit as including it once, with the declarations of one inclusion and a
single definition of MYLIB_EXPORT. -/
theorem include_mylib_h_idempotent (win32 : Bool) (n : Nat) (h : 1 ≤ n) :
    include_times win32 n emptyTU = include_times win32 1 emptyTU ∧
    (include_times win32 n emptyTU).decls = mylib_header win32 ∧
    (include_times win32 n emptyTU).mylibExportDefCount = 1 := by
  obtain ⟨k, rfl⟩ : ∃ k, n = k + 1 := ⟨n - 1, by omega⟩
  have h1 : include_times win32 (k + 1) emptyTU
      = include_times win32 k (include_mylib_h win32 emptyTU) := rfl
  have h2 : include_times win32 k (include_mylib_h win32 emptyTU)
      = include_mylib_h win32 emptyTU :=
    include_times_already win32 k _ (include_mylib_h_marks win32 emptyTU)
  refine ⟨?_, ?_, ?_⟩ <;> rw [h1, h2] <;> rfl

/-- C9 witness: three inclusions of mylib.h on the non-Windows configuration
give the same translation unit as one. -/
theorem include_mylib_h_idempotent_witness :
    include_times false 3 emptyTU = include_times false 1 emptyTU ∧
    (include_times false 3 emptyTU).decls = mylib_header false ∧
    (include_times false 3 emptyTU).mylibExportDefCount = 1 :=
  include_mylib_h_idempotent false 3 (by decide)

/-- C10: both parameters of mylib_add are received by value: no pointer or
reference type occurs among its parameters, and a call leaves the caller's
argument variables a and b unchanged. -/
theorem mylib_add_by_value (win32 : Bool) (v : CallerVars) :
    ((mylib_add_decl win32).params.all fun p => p.type.isByValue) = true ∧
    (call_by_value v).1 = v := by
  exact ⟨rfl, rfl⟩
